import Mathlib

/-!
Verification of the podKube compatibility gateway against its specification.

The development shallowly embeds the storage layer (`pkg/storage/podman.go`,
`pods.go`, `podman-cli.go`, `secrets.go`), the watch engine and the
exec/streaming gateway (`pkg/server/server.go`) as executable Lean functions,
and proves the specified properties about them.  External effects (the podman
CLI, the SPDY transport, wall-clock time) are made explicit parameters:
the container list, the secret store, the sequence of stream events and the
process outcome are inputs of the embedded functions.
-/

namespace PodKube

/-- The separator used by `strings.Join(conditions, ",")`. -/
def commaSep : String := ","

/-- Helper for `stringsSplit`: scan the characters, cutting at every
occurrence of the separator; `acc` holds the current field reversed. -/
def splitCharAux (sep : Char) : List Char → List Char → List String
  | [], acc => [String.mk acc.reverse]
  | c :: rest, acc =>
    if c = sep then String.mk acc.reverse :: splitCharAux sep rest []
    else splitCharAux sep rest (c :: acc)

/-- Go `strings.Split(s, sep)` for a one-character separator (the only form
the source uses): the fields of `s` between occurrences of `sep`; the empty
string yields `[""]`. -/
def stringsSplit (s : String) (sep : Char) : List String :=
  splitCharAux sep s.data []

/-- Go `strings.TrimSpace`: drop leading and trailing whitespace.  Go trims
the full Unicode White_Space set; this model trims the ASCII whitespace
characters, which coincide on the selector strings these functions see. -/
def trimSpace (s : String) : String :=
  String.mk (((s.data.dropWhile Char.isWhitespace).reverse.dropWhile
    Char.isWhitespace).reverse)

/-- Go `strings.Join(elems, sep)`: the elements concatenated with the
separator between consecutive elements. -/
def stringsJoin (sep : String) : List String → String
  | [] => ""
  | [s] => s
  | s :: rest => s ++ sep ++ stringsJoin sep rest

/-- The field `ps.namespace`, set once in `NewPodStorage`: all podman containers are
exposed in the "containers" namespace. -/
def primaryNamespace : String := "containers"

/-- The debug-origin annotation key recognized by `createPodmanContainer`
and asserted on mapped pods by the integration tests. -/
def debugSourceKey : String := "debug.openshift.io/source-container"

/-- Model of `PodmanContainer` from `pkg/storage/podman.go`: the facts reported by
`podman ps --format json`, restricted to the fields the mapped resources
depend on.  The `annotations` field is populated by `getPodmanContainers`
in `podman-cli.go` from `podman inspect`. -/
structure PodmanContainer where
  command : List String
  exitCode : Int
  id : String
  image : String
  imageID : String
  labels : List (String × String)
  names : List String
  pod : String
  restarts : Int
  startedAt : Int
  state : String
  created : Int
  annot : List (String × String)
deriving Repr, DecidableEq

/-- Model of `corev1.PodPhase`; the mapper only produces the five canonical phases. -/
inductive PodPhase
  | pending
  | running
  | succeeded
  | failed
  | unknown
deriving Repr, DecidableEq

/-- The wire string of a phase, used by the `status.phase` field selector. -/
def PodPhase.str : PodPhase → String
  | .pending => "Pending"
  | .running => "Running"
  | .succeeded => "Succeeded"
  | .failed => "Failed"
  | .unknown => "Unknown"

/-- Model of `corev1.PodConditionType`: the mapper only emits `Ready` and
`PodScheduled`. -/
inductive PodConditionType
  | podReady
  | podScheduled
deriving Repr, DecidableEq

/-- The wire string of a condition type (`corev1.PodReady = "Ready"`,
`corev1.PodScheduled = "PodScheduled"`). -/
def PodConditionType.str : PodConditionType → String
  | .podReady => "Ready"
  | .podScheduled => "PodScheduled"

/-- Model of `corev1.ConditionStatus`. -/
inductive ConditionStatus
  | condTrue
  | condFalse
  | condUnknown
deriving Repr, DecidableEq

/-- Model of `corev1.PodCondition`, restricted to the fields the code reads. -/
structure PodCondition where
  type : PodConditionType
  status : ConditionStatus
deriving Repr, DecidableEq

/-- Model of `corev1.ContainerState`: exactly one of waiting/running/terminated. -/
inductive ContainerState
  | waiting (reason : String)
  | running (startedAt : Int)
  | terminated (exitCode : Int) (reason : String) (finishedAt : Int)
deriving Repr, DecidableEq

/-- Model of `corev1.ContainerStatus`, restricted to the fields the code sets/reads. -/
structure ContainerStatus where
  name : String
  image : String
  imageID : String
  containerID : String
  ready : Bool
  restartCount : Int
  state : ContainerState
deriving Repr, DecidableEq

/-- The mapped `corev1.Pod` view: identity, status and timestamps as built by
`podmanContainerToPod`.  The pod spec obtained from `podman kube generate`
is an external runtime fact and not part of any verified property, so it is
omitted here. -/
structure Pod where
  name : String
  ns : String
  labels : List (String × String)
  annot : List (String × String)
  phase : PodPhase
  conditions : List PodCondition
  startTime : Option Int
  creationTimestamp : Option Int
  containerStatuses : List ContainerStatus
deriving Repr, DecidableEq

/-- Model of `podmanContainerToPod` (`pkg/storage/podman.go`).  Containers that belong
to a runtime-level pod group (`container.Pod != ""`) yield `nil`, modelled as
`none`.  For a group-free container the namespace is `"containers"`, demoted
to `"containers-exited"` when the lifecycle state is `"exited"`; phase,
conditions, container state and readiness follow the `switch` on
`container.State`; the annotation map is exactly the two runtime-identity
entries. -/
def podmanContainerToPod (container : PodmanContainer) : Option Pod :=
  let podName :=
    match container.names with
    | n :: _ => n
    | [] =>
      if container.id.length ≥ 12 then String.mk (container.id.data.take 12)
      else container.id
  if container.pod ≠ "" then
    none
  else
    let podNamespace :=
      if container.state = "exited" then "containers-exited" else primaryNamespace
    let restartCount := container.restarts
    let phase : PodPhase :=
      if container.state = "running" then .running
      else if container.state = "exited" then
        (if container.exitCode = 0 then .succeeded else .failed)
      else if container.state = "created" ∨ container.state = "configured" then .pending
      else .unknown
    let conditions : List PodCondition :=
      if container.state = "running" then [⟨.podReady, .condTrue⟩]
      else if container.state = "exited" then [⟨.podReady, .condFalse⟩]
      else if container.state = "created" ∨ container.state = "configured" then
        [⟨.podScheduled, .condTrue⟩]
      else []
    let containerState : ContainerState :=
      if container.state = "running" then .running container.startedAt
      else if container.state = "exited" then
        .terminated container.exitCode ("Completed") container.startedAt
      else if container.state = "created" ∨ container.state = "configured" then
        .waiting ("ContainerCreating")
      else .waiting ("Unknown")
    let ready : Bool := container.state = "running"
    some
      { name := podName
        ns := podNamespace
        labels := container.labels
        annot :=
          [("podman.io/container-id", container.id),
           ("podman.io/image-id", container.imageID)]
        phase := phase
        conditions := conditions
        startTime := if container.startedAt > 0 then some container.startedAt else none
        creationTimestamp := if container.created > 0 then some container.created else none
        containerStatuses :=
          [{ name := podName
             image := container.image
             imageID := container.imageID
             containerID := "podman://" ++ container.id
             ready := ready
             restartCount := restartCount
             state := containerState }] }

/-- Model of `matchesLabelSelector` (`pkg/storage/pods.go`): a single `key=value`
equality clause; any selector that does not split on `=` into exactly two
parts matches everything. -/
def matchesLabelSelector (pod : Pod) (selector : String) : Bool :=
  if selector = "" then true
  else
    match stringsSplit selector '=' with
    | [k, v] =>
      match pod.labels.lookup (trimSpace k) with
      | some pv => pv = trimSpace v
      | none => false
    | _ => true

/-- Model of `matchesFieldSelector` (`pkg/storage/pods.go`): equality on
`status.phase`, `metadata.namespace` and `metadata.name`; unknown fields and
non-`key=value` shapes match everything. -/
def matchesFieldSelector (pod : Pod) (selector : String) : Bool :=
  if selector = "" then true
  else
    match stringsSplit selector '=' with
    | [f, v] =>
      let field := trimSpace f
      let value := trimSpace v
      if field = "status.phase" then pod.phase.str = value
      else if field = "metadata.namespace" then pod.ns = value
      else if field = "metadata.name" then pod.name = value
      else true
    | _ => true

/-- Model of `List` (`pkg/storage/pods.go`): map every container, drop group members
(`nil` pods), then apply the namespace, label-selector and field-selector
filters in order. -/
def listPods (containers : List PodmanContainer)
    (ns labelSelector fieldSelector : String) : List Pod :=
  containers.filterMap fun c =>
    match podmanContainerToPod c with
    | none => none
    | some pod =>
      if ns ≠ "" ∧ pod.ns ≠ ns then none
      else if labelSelector ≠ "" ∧ matchesLabelSelector pod labelSelector = false then none
      else if fieldSelector ≠ "" ∧ matchesFieldSelector pod fieldSelector = false then none
      else some pod

/-- The not-found error message of `Get` and `Delete` (`pkg/storage/pods.go`). -/
def podNotFoundMsg (ns name : String) : String :=
  "pod " ++ ns ++ "/" ++ name ++ " not found"

/-- Model of `getPodmanContainer` (`pkg/storage/podman-cli.go`): first container whose
id or first name equals the requested name. -/
def getPodmanContainer (containers : List PodmanContainer) (name : String) :
    Option PodmanContainer :=
  containers.find? fun c =>
    c.id == name ||
      (match c.names with
       | n :: _ => n == name
       | [] => false)

/-- Model of `Get` (`pkg/storage/pods.go`): a namespace other than `""` or the primary
namespace is rejected up front, before the runtime is consulted; otherwise
the container is looked up by name and mapped. -/
def getPod (containers : List PodmanContainer) (ns name : String) :
    Except String (Option Pod) :=
  if ns ≠ "" ∧ ns ≠ primaryNamespace then
    .error (podNotFoundMsg ns name)
  else
    match getPodmanContainer containers name with
    | none => .error (podNotFoundMsg ns name)
    | some c => .ok (podmanContainerToPod c)

/-- A Kubernetes `corev1.Secret` as submitted to `CreateSecret`, restricted
to the fields the code reads.  The `data` map is modelled as an association
list. -/
structure K8sSecret where
  name : String
  ns : String
  data : List (String × String)
deriving Repr, DecidableEq

/-- The podman secret store: runtime secrets as (name, value) pairs.  It is
the explicit-state rendering of the `podman secret create` / `podman secret
ls` side effects. -/
abbrev SecretStore := List (String × String)

/-- Model of `getPodmanSecret` (`pkg/storage/podman-cli.go`): first stored secret with
the requested name. -/
def getPodmanSecret (store : SecretStore) (name : String) : Option (String × String) :=
  store.find? fun s => s.1 == name

/-- Model of `createPodmanSecret` (`pkg/storage/podman-cli.go`): rejects a data map
with zero entries or more than one entry, and a single entry whose key is
not `"data"`; otherwise stores the value under the secret name. -/
def createPodmanSecret (store : SecretStore) (secret : K8sSecret) :
    Except String SecretStore :=
  if secret.data.length = 0 then .error ("secret must contain data")
  else if 1 < secret.data.length then
    .error ("secret must contain exactly one data entry, got " ++
      toString secret.data.length)
  else
    match secret.data with
    | (key, value) :: _ =>
      if key ≠ "data" then .error ("secret key must be data, got " ++ key)
      else .ok (store ++ [(secret.name, value)])
    | [] => .error ("secret must contain data")

/-- Model of `CreateSecret` (`pkg/storage/secrets.go`): namespace validation, then an
already-exists pre-check, then `createPodmanSecret`, then a re-fetch of the
created secret.  Returns the error/success outcome together with the secret
store after the call; the mapped `corev1.Secret` built by
`podmanSecretToSecret` depends on wall-clock time and is not part of any
verified property, so success carries `Unit`. -/
def createSecret (store : SecretStore) (secret : K8sSecret) :
    Except String Unit × SecretStore :=
  if secret.ns ≠ primaryNamespace then
    (.error ("secrets can only be created in namespace " ++ primaryNamespace), store)
  else
    match getPodmanSecret store secret.name with
    | some _ => (.error ("secret " ++ secret.ns ++ "/" ++ secret.name ++ " already exists"), store)
    | none =>
      match createPodmanSecret store secret with
      | .error e => (.error e, store)
      | .ok store2 =>
        match getPodmanSecret store2 secret.name with
        | none => (.error ("failed to get created secret"), store2)
        | some _ => (.ok (), store2)

/-! ## Watch engine (`pkg/server/server.go`) -/

/-- Model of `podKey`: the `namespace/name` key used by the watch snapshot map. -/
def podKey (ns name : String) : String :=
  if ns = "" then name else ns ++ "/" ++ name

/-- The key of a mapped pod. -/
def keyOf (p : Pod) : String := podKey p.ns p.name

/-- Model of `getPodConditionSummary`: the comma-joined list of the types of the
conditions whose status is `ConditionTrue`. -/
def getPodConditionSummary (pod : Pod) : String :=
  stringsJoin commaSep
    ((pod.conditions.filter fun c => c.status == ConditionStatus.condTrue).map
      fun c => c.type.str)

/-- Model of `podChanged`: the deliberately narrow material-change predicate — phase,
container-status count, per-index readiness and restart count, and the
true-condition summary; everything else (resource version, container id,
container state, labels, ...) is ignored. -/
def podChanged (previous current : Pod) : Bool :=
  if previous.phase ≠ current.phase then true
  else if previous.containerStatuses.length ≠ current.containerStatuses.length then true
  else if (List.zip previous.containerStatuses current.containerStatuses).any
      (fun pc => pc.1.ready != pc.2.ready || pc.1.restartCount != pc.2.restartCount) then true
  else if getPodConditionSummary previous ≠ getPodConditionSummary current then true
  else false

/-- Watch event kinds (`watch.Added`, `watch.Modified`, `watch.Deleted`). -/
inductive WatchEventType
  | added
  | modified
  | deleted
deriving Repr, DecidableEq

/-- Model of `PodChange` (`pkg/server/server.go`). -/
structure PodChange where
  type : WatchEventType
  key : String
  pod : Pod
deriving Repr, DecidableEq

/-- Go map insertion: overwrite the entry with the same key, or append. -/
def mapInsert (m : List (String × Pod)) (k : String) (p : Pod) :
    List (String × Pod) :=
  if m.any (fun kv => kv.1 == k) then
    m.map fun kv => if kv.1 == k then (k, p) else kv
  else m ++ [(k, p)]

/-- The `currentPodMap` built by `detectPodChanges` (and the `previousPods`
snapshot rebuilt after each tick): a map from `podKey` to pod, inserted in
list order. -/
def buildPodMap (pods : List Pod) : List (String × Pod) :=
  pods.foldl (fun m p => mapInsert m (keyOf p) p) []

/-- Model of `detectPodChanges`: pods present in both maps are Modified when
`podChanged`, pods present only now are Added, pods present only before are
Deleted.  Go map iteration order is unspecified; the model iterates in
insertion order. -/
def detectPodChanges (previousPods : List (String × Pod)) (currentPods : List Pod) :
    List PodChange :=
  let currentPodMap := buildPodMap currentPods
  let addedOrModified := currentPodMap.filterMap fun kv =>
    match previousPods.lookup kv.1 with
    | some prev =>
      if podChanged prev kv.2 then some ⟨.modified, kv.1, kv.2⟩ else none
    | none => some ⟨.added, kv.1, kv.2⟩
  let deleted := previousPods.filterMap fun kv =>
    if currentPodMap.any (fun c => c.1 == kv.1) then none
    else some ⟨.deleted, kv.1, kv.2⟩
  addedOrModified ++ deleted

/-- An event sent on a watch connection. -/
structure WatchEvent where
  type : WatchEventType
  pod : Pod
deriving Repr, DecidableEq

/-- One tick of the `watchPods` poll loop: emit the detected changes and
rebuild the `previousPods` snapshot from the current poll. -/
def watchTick (previousPods : List (String × Pod)) (currentPods : List Pod) :
    List WatchEvent × List (String × Pod) :=
  ((detectPodChanges previousPods currentPods).map fun ch => ⟨ch.type, ch.pod⟩,
   buildPodMap currentPods)

/-- The `watchPods` poll loop over a finite sequence of polls. -/
def watchLoop (previousPods : List (String × Pod)) :
    List (List Pod) → List WatchEvent
  | [] => []
  | poll :: rest =>
    let t := watchTick previousPods poll
    t.1 ++ watchLoop t.2 rest

/-- Model of `watchPods`: replay the initial listing as Added events while seeding the
`previousPods` snapshot, then run the poll loop.  Each `poll` is the result
of re-listing with the connection's selectors at one tick; cancellation
simply truncates the poll sequence. -/
def watchPods (initial : List Pod) (polls : List (List Pod)) : List WatchEvent :=
  initial.map (fun p => ⟨.added, p⟩) ++ watchLoop (buildPodMap initial) polls

/-! ## Exec/streaming gateway (`pkg/server/server.go`) -/

/-- Model of `ExecOptions`. -/
structure ExecOptions where
  stdin : Bool
  stdout : Bool
  stderr : Bool
  tty : Bool
deriving Repr, DecidableEq

/-- The expected stream count computed in `createStreams`: the error stream,
one per requested standard stream, plus the resize stream in TTY mode. -/
def expectedStreams (opts : ExecOptions) : Nat :=
  1 + (if opts.stdin then 1 else 0) + (if opts.stdout then 1 else 0) +
    (if opts.stderr then 1 else 0) + (if opts.tty then 1 else 0)

/-- The events observed by the `waitForStreams` select loop: a stream
arriving on the upgrade connection (with its `streamType` header), a reply
acknowledgement arriving on `replyChan`, and the creation-timeout timer
firing. -/
inductive StreamEvent
  | arrival (streamType : String)
  | reply
  | timeout
deriving Repr, DecidableEq

/-- The stream slots of `connectionContext` that `waitForStreams` fills. -/
structure ConnCtx where
  hasErrorStream : Bool := false
  hasStdin : Bool := false
  hasStdout : Bool := false
  hasStderr : Bool := false
  hasResize : Bool := false
deriving Repr, DecidableEq

/-- The `switch streamType` of `waitForStreams`: bind the arriving stream to
its slot; unexpected types are logged and ignored. -/
def bindStream (ctx : ConnCtx) (streamType : String) : ConnCtx :=
  if streamType = "error" then { ctx with hasErrorStream := true }
  else if streamType = "stdin" then { ctx with hasStdin := true }
  else if streamType = "stdout" then { ctx with hasStdout := true }
  else if streamType = "stderr" then { ctx with hasStderr := true }
  else if streamType = "resize" then { ctx with hasResize := true }
  else ctx

/-- The `waitForStreams` loop: process events until `receivedStreams` reaches
`expected` (success), the timer fires (failure), or the event sequence ends
with the loop still blocked (failure: the timer would eventually fire). -/
def waitForStreamsAux (ctx : ConnCtx) (receivedStreams expected : Nat) :
    List StreamEvent → Option ConnCtx
  | [] => none
  | .timeout :: _ => none
  | .arrival t :: rest => waitForStreamsAux (bindStream ctx t) receivedStreams expected rest
  | .reply :: rest =>
    if receivedStreams + 1 = expected then some ctx
    else waitForStreamsAux ctx (receivedStreams + 1) expected rest

/-- Model of `waitForStreams` starting from an empty context and zero received
streams. -/
def waitForStreams (expected : Nat) (events : List StreamEvent) : Option ConnCtx :=
  waitForStreamsAux {} 0 expected events

/-- The number of reply acknowledgements delivered before the creation
timeout fires: the quantity that decides whether `waitForStreams`
succeeds. -/
def repliesBeforeTimeout (events : List StreamEvent) : Nat :=
  ((events.takeWhile fun e => e != StreamEvent.timeout).filter
    fun e => e == StreamEvent.reply).length

/-- Model of `remotecommandconsts.StreamProtocolV4Name`, the newest supported
protocol, listed first in `handleSPDYExec`. -/
def protocolV4 : String := "v4.channel.k8s.io"

/-- A `metav1.Status` as built by `handleSPDYExec`, restricted to the fields
the code sets: status, message, reason, and the detail causes as
(type, message) pairs. -/
structure K8sStatus where
  status : String
  message : String
  reason : String
  causes : List (String × String)
deriving Repr, DecidableEq

/-- The success status written on clean process exit. -/
def successStatus : K8sStatus :=
  { status := "Success", message := "", reason := "", causes := [] }

/-- The structured non-zero-exit status: reason `NonZeroExitCode`, one
`ExitCode` cause carrying the numeric exit code. -/
def nonZeroExitStatus (rc : Int) : K8sStatus :=
  { status := "Failure"
    message := "command terminated with non-zero exit code: exit status " ++ toString rc
    reason := "NonZeroExitCode"
    causes := [("ExitCode", toString rc)] }

/-- Model of `apierrors.NewInternalError` applied to the wrapped execution error. -/
def internalErrorStatus (msg : String) : K8sStatus :=
  { status := "Failure"
    message := "Internal error occurred: " ++ msg
    reason := "InternalError"
    causes := [("", msg)] }

/-- What is written on the error stream: a marshalled JSON status object, or
raw error text. -/
inductive ErrorStreamWrite
  | jsonStatus (s : K8sStatus)
  | rawText (s : String)
deriving Repr, DecidableEq

/-- Model of `writeV4Status`: marshal the status object to JSON and write it. -/
def writeV4Status (s : K8sStatus) : List ErrorStreamWrite :=
  [.jsonStatus s]

/-- Model of `writeV1Status`: write `status.Error()` (the status message) on failure,
nothing on success. -/
def writeV1Status (s : K8sStatus) : List ErrorStreamWrite :=
  if s.status ≠ "Success" then [.rawText s.message] else []

/-- The error stream after the status write: the writes performed and whether
the stream was closed. -/
structure ErrorStreamResult where
  writes : List ErrorStreamWrite
  closed : Bool
deriving Repr, DecidableEq

/-- Model of `createWriteStatusFunc`: v4 writes the JSON status, every older protocol
uses the v1 convention; the deferred `stream.Close()` always runs. -/
def writeStatus (protocol : String) (s : K8sStatus) : ErrorStreamResult :=
  { writes := if protocol = protocolV4 then writeV4Status s else writeV1Status s
    closed := true }

/-- The possible outcomes of `execInContainer` as seen by `handleSPDYExec`:
clean exit, an `exec.ExitError` carrying the exit code, or a failure to
execute at all. -/
inductive ExecOutcome
  | success
  | exitError (code : Int)
  | startFailure (msg : String)
deriving Repr, DecidableEq

/-- The status object `handleSPDYExec` builds from the execution outcome. -/
def execStatusOf : ExecOutcome → K8sStatus
  | .success => successStatus
  | .exitError rc => nonZeroExitStatus rc
  | .startFailure msg =>
    internalErrorStatus ("error executing command in container: " ++ msg)

/-- The status write `handleSPDYExec` performs on the error stream after the
process completes. -/
def reportExecStatus (protocol : String) (outcome : ExecOutcome) : ErrorStreamResult :=
  writeStatus protocol (execStatusOf outcome)

/-- The observable result of one SPDY exec session. -/
structure ExecSessionResult where
  processSpawned : Bool
  errorStream : Option ErrorStreamResult
deriving Repr, DecidableEq

/-- Model of `handleSPDYExec` after protocol negotiation: wait for the expected
streams; a timeout aborts the session with no process spawned and nothing
written; otherwise the process runs and its outcome is reported on the error
stream. -/
def handleSPDYExec (protocol : String) (opts : ExecOptions)
    (events : List StreamEvent) (outcome : ExecOutcome) : ExecSessionResult :=
  match waitForStreams (expectedStreams opts) events with
  | none => { processSpawned := false, errorStream := none }
  | some _ =>
    { processSpawned := true, errorStream := some (reportExecStatus protocol outcome) }

/-! ## Statement vocabulary

Definitions used to state the specified properties. -/

/-- The ordered list of the condition types whose status is `ConditionTrue`:
the raw data behind `getPodConditionSummary`. -/
def trueCondTypes (pod : Pod) : List PodConditionType :=
  (pod.conditions.filter fun c => c.status == ConditionStatus.condTrue).map
    fun c => c.type

/-- The fields of a pod that the watch engine treats as significant: phase,
container-status count, per-container readiness flags and restart counts,
and the sequence of true conditions. -/
def materiallyEqual (prev curr : Pod) : Prop :=
  prev.phase = curr.phase ∧
  prev.containerStatuses.length = curr.containerStatuses.length ∧
  (∀ pc ∈ List.zip prev.containerStatuses curr.containerStatuses,
    pc.1.ready = pc.2.ready ∧ pc.1.restartCount = pc.2.restartCount) ∧
  trueCondTypes prev = trueCondTypes curr

instance (prev curr : Pod) : Decidable (materiallyEqual prev curr) := by
  unfold materiallyEqual
  infer_instance

/-- The character sequence of the condition summary determined by a list of
condition types: proof vocabulary for the injectivity of the summary. -/
def joinChars : List PodConditionType → List Char
  | [] => []
  | [a] => (PodConditionType.str a).data
  | a :: b :: t => (PodConditionType.str a).data ++ ',' :: joinChars (b :: t)

/-! ## Concrete inputs

Concrete containers, pods and secrets used as failing inputs and witnesses. -/

/-- The value of the debug-origin annotation set by the integration test
`Debug containers stay in main namespace`. -/
def originalPodVal : String := "original-pod"

/-- An exited container carrying the debug-origin annotation, as created by
the integration test `Debug containers stay in main namespace`:
`podman run --name debug-namespace-test
--annotation debug.openshift.io/source-container=original-pod
alpine:latest echo debug-output`. -/
def debugExitedContainer : PodmanContainer :=
  { command := ["echo", "debug-output"]
    exitCode := 0
    id := "aaaabbbbccccdddd"
    image := "alpine:latest"
    imageID := "sha256:img1"
    labels := []
    names := ["debug-namespace-test"]
    pod := ""
    restarts := 0
    startedAt := 100
    state := "exited"
    created := 90
    annot := [("debug.openshift.io/source-container", "original-pod")] }

/-- A plain exited container without the debug annotation. -/
def exitedContainer : PodmanContainer :=
  { command := ["echo", "hello"]
    exitCode := 0
    id := "eeeeffff00001111"
    image := "alpine:latest"
    imageID := "sha256:img2"
    labels := []
    names := ["exited-pod"]
    pod := ""
    restarts := 0
    startedAt := 110
    state := "exited"
    created := 105
    annot := [] }

/-- A running container with one label, used as a witness input. -/
def labeledContainer : PodmanContainer :=
  { command := ["sleep", "3600"]
    exitCode := 0
    id := "2222333344445555"
    image := "alpine:latest"
    imageID := "sha256:img3"
    labels := [("app", "web")]
    names := ["web-pod"]
    pod := ""
    restarts := 0
    startedAt := 120
    state := "running"
    created := 115
    annot := [] }

/-- The pod `labeledContainer` maps to. -/
def labeledPodVal : Pod :=
  { name := "web-pod"
    ns := "containers"
    labels := [("app", "web")]
    annot :=
      [("podman.io/container-id", "2222333344445555"),
       ("podman.io/image-id", "sha256:img3")]
    phase := .running
    conditions := [⟨.podReady, .condTrue⟩]
    startTime := some 120
    creationTimestamp := some 115
    containerStatuses :=
      [{ name := "web-pod"
         image := "alpine:latest"
         imageID := "sha256:img3"
         containerID := "podman://2222333344445555"
         ready := true
         restartCount := 0
         state := .running 120 }] }

/-- Previous-poll pod with two true conditions in one order. -/
def condOrderPodA : Pod :=
  { name := "p"
    ns := "containers"
    labels := []
    annot := []
    phase := .running
    conditions := [⟨.podReady, .condTrue⟩, ⟨.podScheduled, .condTrue⟩]
    startTime := none
    creationTimestamp := none
    containerStatuses := [] }

/-- Current-poll pod identical to `condOrderPodA` except that the two true
conditions appear in the opposite order: the same true-condition set. -/
def condOrderPodB : Pod :=
  { condOrderPodA with
    conditions := [⟨.podScheduled, .condTrue⟩, ⟨.podReady, .condTrue⟩] }

/-- Previous-poll pod for the material-change witness. -/
def unchangedPrevPod : Pod := labeledPodVal

/-- Current-poll pod identical to `unchangedPrevPod` on every significant
field but with different volatile fields (labels, annotations, container
id and container state). -/
def unchangedCurrPod : Pod :=
  { labeledPodVal with
    labels := [("app", "web"), ("tier", "frontend")]
    annot := [("podman.io/container-id", "6666777788889999")]
    containerStatuses :=
      [{ name := "web-pod"
         image := "alpine:latest"
         imageID := "sha256:img3b"
         containerID := "podman://6666777788889999"
         ready := true
         restartCount := 0
         state := .running 121 }] }

/-- The exited-namespace variant. -/
def exitedNs : String := "containers-exited"

/-- The name of `exitedContainer`. -/
def exitedName : String := "exited-pod"

/-- The empty selector / namespace filter. -/
def noSelector : String := ""

/-- A label selector of the single supported `key=value` shape. -/
def selAppWeb : String := "app=web"

/-- A label selector that does not split into exactly two parts. -/
def selComplex : String := "a=b=c"

/-- The key and value of `selAppWeb`. -/
def keyApp : String := "app"

/-- The value of `selAppWeb`. -/
def valWeb : String := "web"

/-- The `StatusCause.Type` of the exit-code cause
(`remotecommandconsts.ExitCodeCauseType`). -/
def exitCodeCauseType : String := "ExitCode"

/-- Model of `remotecommandconsts.StreamProtocolV1Name`, the oldest protocol. -/
def protocolV1 : String := "channel.k8s.io"

/-- The pod `unchangedCurrPod` with the readiness flag flipped: a material change. -/
def readyFlippedPod : Pod :=
  { name := "web-pod"
    ns := "containers"
    labels := [("app", "web"), ("tier", "frontend")]
    annot := [("podman.io/container-id", "6666777788889999")]
    phase := .running
    conditions := [⟨.podReady, .condTrue⟩]
    startTime := some 120
    creationTimestamp := some 115
    containerStatuses :=
      [{ name := "web-pod"
         image := "alpine:latest"
         imageID := "sha256:img3b"
         containerID := "podman://6666777788889999"
         ready := false
         restartCount := 0
         state := .running 121 }] }

/-- A secret with two data entries, as in the test scenario
`create a secret with two data entries`. -/
def twoEntrySecret : K8sSecret :=
  { name := "bad-secret"
    ns := "containers"
    data := [("a", "1"), ("b", "2")] }

/-- A secret with exactly one data entry under the key `"data"`. -/
def oneEntrySecret : K8sSecret :=
  { name := "good-secret"
    ns := "containers"
    data := [("data", "value-1")] }

/-! ## Theorems -/

/-- C1: the namespace-placement claim against the code.  The claim (and the
integration test `Debug containers stay in main namespace`) requires a record
carrying the debug-origin annotation to map to the primary namespace
regardless of lifecycle state; `podmanContainerToPod` never consults the
annotations when deriving the namespace, so the exited debug container of
the integration test is placed in the exited-namespace variant instead. -/
theorem debug_exited_namespace_code_behavior :
    debugExitedContainer.annot.lookup debugSourceKey = some originalPodVal ∧
    debugExitedContainer.state = "exited" ∧
    debugExitedContainer.pod = "" ∧
    (podmanContainerToPod debugExitedContainer).map Pod.ns = some exitedNs := by
  decide

/-- C9: the annotation-mapping claim against the code.  The claim (and the
integration test) requires the mapped annotation map to be the union of the
caller-supplied annotations and the two runtime-identity entries;
`podmanContainerToPod` builds the map from the two runtime-identity entries
alone, dropping the caller-supplied debug annotation. -/
theorem annotation_mapping_code_behavior :
    (podmanContainerToPod debugExitedContainer).map Pod.annot =
      some
        [("podman.io/container-id", debugExitedContainer.id),
         ("podman.io/image-id", debugExitedContainer.imageID)] ∧
    (podmanContainerToPod debugExitedContainer).map
      (fun p => p.annot.lookup debugSourceKey) = some none := by
  decide

/-- C10: `Get` rejects every namespace other than `""` and the primary one
with a not-found error before consulting the container list, even though
`List` places exited containers in exactly such a namespace: exited pods are
listable under `containers-exited` but not retrievable there. -/
theorem exited_pods_listable_not_retrievable :
    (∀ (containers : List PodmanContainer) (ns name : String),
      ns ≠ "" → ns ≠ primaryNamespace →
      getPod containers ns name = Except.error (podNotFoundMsg ns name)) ∧
    ((listPods [exitedContainer] exitedNs noSelector noSelector).map Pod.ns =
       [exitedNs] ∧
     (listPods [exitedContainer] exitedNs noSelector noSelector).map Pod.name =
       [exitedName] ∧
     getPod [exitedContainer] exitedNs exitedName =
       Except.error (podNotFoundMsg exitedNs exitedName)) := by
  constructor
  · intro containers ns name h1 h2
    unfold getPod
    rw [if_pos ⟨h1, h2⟩]
  · exact ⟨by decide, by decide, by rfl⟩

/-- Witness for C10 at a concrete input. -/
theorem exited_pods_listable_not_retrievable_witness :
    getPod [exitedContainer] exitedNs exitedName =
      Except.error (podNotFoundMsg exitedNs exitedName) :=
  exited_pods_listable_not_retrievable.1 [exitedContainer] exitedNs exitedName
    (by decide) (by decide)

/-- C4: exit-status reporting by protocol version.  On the newest protocol
(v4) exactly one JSON status object is written: the non-zero-exit status
carrying the numeric exit code on process failure, the success status on
clean exit, and an internal-error status when execution could not start.
On every older protocol a failure writes only the raw error text and a
clean exit writes nothing.  The error stream is closed in all cases. -/
theorem exec_status_protocol_conventions :
    (∀ rc : Int, rc ≠ 0 →
      reportExecStatus protocolV4 (.exitError rc) =
        ⟨[.jsonStatus (nonZeroExitStatus rc)], true⟩ ∧
      (nonZeroExitStatus rc).causes = [(exitCodeCauseType, toString rc)]) ∧
    (reportExecStatus protocolV4 .success = ⟨[.jsonStatus successStatus], true⟩) ∧
    (∀ msg, reportExecStatus protocolV4 (.startFailure msg) =
      ⟨[.jsonStatus
          (internalErrorStatus ("error executing command in container: " ++ msg))],
        true⟩) ∧
    (∀ protocol, protocol ≠ protocolV4 → ∀ rc : Int,
      reportExecStatus protocol (.exitError rc) =
        ⟨[.rawText (nonZeroExitStatus rc).message], true⟩) ∧
    (∀ protocol, protocol ≠ protocolV4 →
      reportExecStatus protocol .success = ⟨[], true⟩) ∧
    (∀ protocol outcome, (reportExecStatus protocol outcome).closed = true) := by
  refine ⟨?_, ?_, ?_, ?_, ?_, ?_⟩
  · intro rc _
    exact ⟨by simp [reportExecStatus, writeStatus, execStatusOf, writeV4Status], rfl⟩
  · rfl
  · intro msg
    simp [reportExecStatus, writeStatus, execStatusOf, writeV4Status]
  · intro protocol hp rc
    simp [reportExecStatus, writeStatus, execStatusOf, hp, writeV1Status,
      nonZeroExitStatus]
  · intro protocol hp
    simp [reportExecStatus, writeStatus, execStatusOf, hp, writeV1Status,
      successStatus]
  · intro protocol outcome
    simp [reportExecStatus, writeStatus]

/-- Witness for C4: exit code 7 on the newest and the oldest protocol, and a
clean exit on the oldest protocol. -/
theorem exec_status_protocol_conventions_witness :
    (reportExecStatus protocolV4 (.exitError 7) =
      ⟨[.jsonStatus (nonZeroExitStatus 7)], true⟩ ∧
     (nonZeroExitStatus 7).causes = [(exitCodeCauseType, toString (7 : Int))]) ∧
    reportExecStatus protocolV1 (.exitError 7) =
      ⟨[.rawText (nonZeroExitStatus 7).message], true⟩ ∧
    reportExecStatus protocolV1 .success = ⟨[], true⟩ :=
  ⟨exec_status_protocol_conventions.1 7 (by decide),
   exec_status_protocol_conventions.2.2.2.1 protocolV1 (by decide) 7,
   exec_status_protocol_conventions.2.2.2.2.1 protocolV1 (by decide)⟩

/-- The reply counter ignores arrivals. -/
theorem repliesBeforeTimeout_arrival (t : String) (rest : List StreamEvent) :
    repliesBeforeTimeout (.arrival t :: rest) = repliesBeforeTimeout rest := by
  have h1 : (StreamEvent.arrival t != StreamEvent.timeout) = true := rfl
  have h2 : (StreamEvent.arrival t == StreamEvent.reply) = false := rfl
  simp [repliesBeforeTimeout, List.takeWhile, List.filter, h1, h2]

/-- The reply counter counts replies. -/
theorem repliesBeforeTimeout_reply (rest : List StreamEvent) :
    repliesBeforeTimeout (.reply :: rest) = repliesBeforeTimeout rest + 1 := by
  simp [repliesBeforeTimeout, List.takeWhile, List.filter]

/-- The loop `waitForStreamsAux` succeeds exactly when enough reply acknowledgements
arrive before the timeout, provided fewer than `expected` streams have been
received so far. -/
theorem waitForStreamsAux_isSome (expected : Nat) :
    ∀ (events : List StreamEvent) (ctx : ConnCtx) (received : Nat),
      received < expected →
      ((waitForStreamsAux ctx received expected events).isSome ↔
        expected ≤ received + repliesBeforeTimeout events) := by
  intro events
  induction events with
  | nil =>
    intro ctx received h
    simp [waitForStreamsAux, repliesBeforeTimeout, Nat.lt_irrefl]
    omega
  | cons e rest ih =>
    intro ctx received h
    cases e with
    | arrival t =>
      rw [waitForStreamsAux, repliesBeforeTimeout_arrival]
      exact ih (bindStream ctx t) received h
    | reply =>
      rw [waitForStreamsAux, repliesBeforeTimeout_reply]
      by_cases hr : received + 1 = expected
      · rw [if_pos hr]
        simp [Option.isSome]
        omega
      · rw [if_neg hr]
        have hlt : received + 1 < expected := by omega
        rw [ih ctx (received + 1) hlt]
        omega
    | timeout =>
      have h0 : repliesBeforeTimeout (StreamEvent.timeout :: rest) = 0 := rfl
      rw [waitForStreamsAux, h0]
      simp [Option.isSome]
      omega

/-- C2: stream binding in the exec gateway.  The expected stream count is
one (error stream) plus one per requested standard stream plus one more in
TTY mode — 4 for tty/stdin/stdout without stderr — and the session spawns
the process exactly when that many reply acknowledgements arrive before the
stream-creation timeout; otherwise the session aborts with no process
spawned and nothing written. -/
theorem exec_stream_binding :
    expectedStreams ⟨true, true, false, true⟩ = 4 ∧
    (∀ (protocol : String) (opts : ExecOptions) (events : List StreamEvent)
       (outcome : ExecOutcome),
      ((handleSPDYExec protocol opts events outcome).processSpawned = true ↔
        expectedStreams opts ≤ repliesBeforeTimeout events)) ∧
    (∀ (protocol : String) (opts : ExecOptions) (events : List StreamEvent)
       (outcome : ExecOutcome),
      repliesBeforeTimeout events < expectedStreams opts →
      handleSPDYExec protocol opts events outcome =
        { processSpawned := false, errorStream := none }) := by
  have hpos : ∀ opts : ExecOptions, 0 < expectedStreams opts := by
    intro opts
    simp [expectedStreams]
  have hkey : ∀ (opts : ExecOptions) (events : List StreamEvent),
      (waitForStreams (expectedStreams opts) events).isSome ↔
        expectedStreams opts ≤ repliesBeforeTimeout events := by
    intro opts events
    have := waitForStreamsAux_isSome (expectedStreams opts) events {} 0 (hpos opts)
    simpa [waitForStreams] using this
  refine ⟨rfl, ?_, ?_⟩
  · intro protocol opts events outcome
    rw [← hkey opts events]
    unfold handleSPDYExec
    cases hw : waitForStreams (expectedStreams opts) events <;> simp [hw]
  · intro protocol opts events outcome hlt
    have hnone : waitForStreams (expectedStreams opts) events = none := by
      have := (hkey opts events).not
      rw [Option.not_isSome_iff_eq_none] at this
      exact this.mpr (by omega)
    unfold handleSPDYExec
    rw [hnone]

/-- Witness for C2: a timed-out session spawns nothing; a session whose four
streams all bind in time spawns the process. -/
theorem exec_stream_binding_witness :
    handleSPDYExec protocolV4 ⟨true, true, false, true⟩
      [.arrival ("error"), .reply, .timeout, .reply, .reply, .reply] .success =
      { processSpawned := false, errorStream := none } ∧
    (handleSPDYExec protocolV4 ⟨true, true, false, true⟩
      [.arrival ("error"), .reply, .arrival ("stdin"), .reply,
       .arrival ("stdout"), .reply, .arrival ("resize"), .reply]
      .success).processSpawned = true :=
  ⟨exec_stream_binding.2.2 protocolV4 ⟨true, true, false, true⟩ _ .success (by decide),
   (exec_stream_binding.2.1 protocolV4 ⟨true, true, false, true⟩ _ .success).2
     (by decide)⟩

/-- The character data of the `podReady` wire string. -/
theorem podReady_data :
    (PodConditionType.str .podReady).data = ['R', 'e', 'a', 'd', 'y'] := rfl

/-- The character data of the `podScheduled` wire string. -/
theorem podScheduled_data :
    (PodConditionType.str .podScheduled).data =
      ['P', 'o', 'd', 'S', 'c', 'h', 'e', 'd', 'u', 'l', 'e', 'd'] := rfl

/-- Uniform cons equation for `joinChars`. -/
theorem joinChars_cons (a : PodConditionType) (t : List PodConditionType) :
    joinChars (a :: t) =
      (PodConditionType.str a).data ++
        (match t with
         | [] => []
         | _ :: _ => ',' :: joinChars t) := by
  cases t with
  | nil => simp [joinChars]
  | cons b t2 => rfl

/-- The summary string of a list of condition types has character data
`joinChars`. -/
theorem joinChars_eq :
    ∀ l : List PodConditionType,
      (stringsJoin commaSep (l.map PodConditionType.str)).data = joinChars l
  | [] => rfl
  | [_] => rfl
  | a :: b :: t => by
    have ih := joinChars_eq (b :: t)
    have h1 : stringsJoin commaSep ((a :: b :: t).map PodConditionType.str) =
        PodConditionType.str a ++ commaSep ++
          stringsJoin commaSep ((b :: t).map PodConditionType.str) := rfl
    have h2 : commaSep.data = [','] := rfl
    rw [h1, String.data_append, String.data_append, ih, h2]
    simp [joinChars]

/-- Two lists of condition types with the same summary characters are
equal: the wire strings are comma-free and the separator makes the encoding
unambiguous. -/
theorem joinChars_inj (l1 : List PodConditionType) :
    ∀ l2, joinChars l1 = joinChars l2 → l1 = l2 := by
  induction l1 with
  | nil =>
    intro l2 h
    cases l2 with
    | nil => rfl
    | cons b t2 =>
      exfalso
      rw [joinChars_cons] at h
      cases b <;> simp [podReady_data, podScheduled_data, joinChars] at h
  | cons a t1 ih =>
    intro l2 h
    cases l2 with
    | nil =>
      exfalso
      rw [joinChars_cons] at h
      cases a <;> simp [podReady_data, podScheduled_data, joinChars] at h
    | cons b t2 =>
      rw [joinChars_cons, joinChars_cons] at h
      have hab : a = b := by
        cases a <;> cases b <;>
          first
          | rfl
          | (exfalso; simp [podReady_data, podScheduled_data] at h)
      subst hab
      have htail := List.append_cancel_left h
      cases t1 with
      | nil =>
        cases t2 with
        | nil => rfl
        | cons c t3 => exact absurd htail (by simp)
      | cons c t3 =>
        cases t2 with
        | nil => exact absurd htail (by simp)
        | cons d t4 =>
          simp only [List.cons.injEq, true_and] at htail
          rw [ih (d :: t4) htail]

/-- Two pods have the same condition summary exactly when their
true-condition sequences coincide. -/
theorem summary_eq_iff (p q : Pod) :
    getPodConditionSummary p = getPodConditionSummary q ↔
      trueCondTypes p = trueCondTypes q := by
  have hview : ∀ r : Pod,
      getPodConditionSummary r =
        stringsJoin commaSep ((trueCondTypes r).map PodConditionType.str) := by
    intro r
    simp [getPodConditionSummary, trueCondTypes, List.map_map]
    rfl
  constructor
  · intro h
    apply joinChars_inj
    rw [← joinChars_eq, ← joinChars_eq, ← hview, ← hview, h]
  · intro h
    rw [hview, hview, h]

/-- The predicate `podChanged` is false exactly on materially equal pods. -/
theorem podChanged_false_iff (prev curr : Pod) :
    podChanged prev curr = false ↔ materiallyEqual prev curr := by
  unfold podChanged
  split_ifs with h1 h2 h3 h4
  · simp only [Bool.true_eq_false, false_iff]
    exact fun hm => h1 hm.1
  · simp only [Bool.true_eq_false, false_iff]
    exact fun hm => h2 hm.2.1
  · simp only [Bool.true_eq_false, false_iff]
    intro hm
    obtain ⟨pc, hmem, hpc⟩ := List.any_eq_true.mp h3
    have := hm.2.2.1 pc hmem
    rcases Bool.or_eq_true_iff.mp hpc with hr | hs
    · exact absurd this.1 (bne_iff_ne.mp hr)
    · exact absurd this.2 (bne_iff_ne.mp hs)
  · simp only [Bool.true_eq_false, false_iff]
    exact fun hm => h4 ((summary_eq_iff prev curr).mpr hm.2.2.2)
  · simp only [eq_self_iff_true, true_iff]
    refine ⟨not_not.mp h1, not_not.mp h2, ?_, (summary_eq_iff prev curr).mp (not_not.mp h4)⟩
    intro pc hmem
    have hfalse : ¬ ((pc.1.ready != pc.2.ready || pc.1.restartCount != pc.2.restartCount) = true) := by
      intro hc
      exact h3 (List.any_eq_true.mpr ⟨pc, hmem, hc⟩)
    constructor
    · by_contra hr
      exact hfalse (Bool.or_eq_true_iff.mpr (Or.inl (bne_iff_ne.mpr hr)))
    · by_contra hs
      exact hfalse (Bool.or_eq_true_iff.mpr (Or.inr (bne_iff_ne.mpr hs)))

/-- C3 (amended): between two consecutive polls of the same pod key, no
watch event is produced exactly when phase, container-status count,
per-container readiness flags, per-container restart counts and the
sequence of true conditions all coincide — volatile fields are ignored —
and any difference in those fields produces exactly one Modified event. -/
theorem watch_material_change (prev curr : Pod) (hkey : keyOf prev = keyOf curr) :
    (podChanged prev curr = false ↔ materiallyEqual prev curr) ∧
    (materiallyEqual prev curr →
      detectPodChanges [(keyOf prev, prev)] [curr] = []) ∧
    (¬ materiallyEqual prev curr →
      detectPodChanges [(keyOf prev, prev)] [curr] =
        [{ type := .modified, key := keyOf curr, pod := curr }]) := by
  have hdet : detectPodChanges [(keyOf prev, prev)] [curr] =
      if podChanged prev curr then
        [{ type := .modified, key := keyOf curr, pod := curr }]
      else [] := by
    unfold detectPodChanges buildPodMap
    cases hc : podChanged prev curr <;>
      simp [mapInsert, List.lookup, hkey, hc, List.filterMap_cons, beq_self_eq_true]
  refine ⟨podChanged_false_iff prev curr, ?_, ?_⟩
  · intro hm
    rw [hdet, (podChanged_false_iff prev curr).mpr hm]
    rfl
  · intro hm
    have hb : podChanged prev curr = true := by
      cases hc : podChanged prev curr with
      | false => exact absurd ((podChanged_false_iff prev curr).mp hc) hm
      | true => rfl
    rw [hdet, hb]
    rfl

/-- Counterexample to C3 as stated: two polls of the same pod agreeing on
phase, container-status count, readiness, restart counts and on the
true-condition SET (the two true conditions merely appear in a different
order) nevertheless produce a Modified event, because the summary compares
the joined sequence, not the set. -/
theorem watch_condition_set_counterexample :
    condOrderPodA.phase = condOrderPodB.phase ∧
    condOrderPodA.containerStatuses.length =
      condOrderPodB.containerStatuses.length ∧
    (∀ pc ∈ List.zip condOrderPodA.containerStatuses
        condOrderPodB.containerStatuses,
      pc.1.ready = pc.2.ready ∧ pc.1.restartCount = pc.2.restartCount) ∧
    List.Perm (trueCondTypes condOrderPodA) (trueCondTypes condOrderPodB) ∧
    (∀ t, t ∈ trueCondTypes condOrderPodA ↔ t ∈ trueCondTypes condOrderPodB) ∧
    detectPodChanges [(keyOf condOrderPodA, condOrderPodA)] [condOrderPodB] =
      [{ type := .modified, key := keyOf condOrderPodB, pod := condOrderPodB }] := by
  refine ⟨rfl, rfl, by decide, by decide, ?_, by decide⟩
  intro t
  cases t <;> decide

/-- Witness for C3 (amended): a current poll differing from the previous
one only in volatile fields (labels, annotations, container id, container
state) produces no event; the same current poll with a flipped readiness
flag produces exactly one Modified event. -/
theorem watch_material_change_witness :
    detectPodChanges [(keyOf unchangedPrevPod, unchangedPrevPod)]
      [unchangedCurrPod] = [] ∧
    detectPodChanges [(keyOf unchangedPrevPod, unchangedPrevPod)]
      [readyFlippedPod] =
      [{ type := .modified, key := keyOf readyFlippedPod, pod := readyFlippedPod }] :=
  ⟨(watch_material_change unchangedPrevPod unchangedCurrPod (by decide)).2.1
      (by decide),
   (watch_material_change unchangedPrevPod readyFlippedPod (by decide)).2.2
      (by decide)⟩

/-- Pairs of the zip of a list with itself are diagonal. -/
theorem zip_self_eq {α : Type} (l : List α) :
    ∀ pc ∈ List.zip l l, pc.1 = pc.2 := by
  induction l with
  | nil => simp
  | cons x t ih =>
    intro pc hm
    rw [List.zip_cons_cons] at hm
    rcases List.mem_cons.mp hm with rfl | hmt
    · rfl
    · exact ih pc hmt

/-- A pod never differs materially from itself. -/
theorem podChanged_self (p : Pod) : podChanged p p = false :=
  (podChanged_false_iff p p).mpr
    ⟨rfl, rfl, fun pc hm => by rw [zip_self_eq _ pc hm]; exact ⟨rfl, rfl⟩, rfl⟩

/-- Folding Go-map insertion over key-distinct pods appends the key-pod
pairs in order. -/
theorem foldl_mapInsert (l : List Pod) :
    ∀ acc : List (String × Pod),
      (acc.map Prod.fst ++ l.map keyOf).Nodup →
      l.foldl (fun m p => mapInsert m (keyOf p) p) acc =
        acc ++ l.map fun p => (keyOf p, p) := by
  induction l with
  | nil =>
    intro acc _
    simp
  | cons p t ih =>
    intro acc h
    have hsplit := List.nodup_append.mp h
    have hkp : keyOf p ∉ acc.map Prod.fst := by
      intro hin
      exact hsplit.2.2 hin (by simp)
    have hins : mapInsert acc (keyOf p) p = acc ++ [(keyOf p, p)] := by
      unfold mapInsert
      rw [if_neg]
      intro hany
      obtain ⟨kv, hkv, hb⟩ := List.any_eq_true.mp hany
      exact hkp (beq_iff_eq.mp hb ▸ List.mem_map_of_mem Prod.fst hkv)
    rw [List.foldl_cons, hins, ih (acc ++ [(keyOf p, p)])]
    · simp
    · have hperm : acc.map Prod.fst ++ keyOf p :: t.map keyOf =
          (acc ++ [(keyOf p, p)]).map Prod.fst ++ t.map keyOf := by
        simp
      rw [← hperm]
      simpa using h

/-- With distinct keys, `buildPodMap` is the key-pod pairing in list
order. -/
theorem buildPodMap_eq (l : List Pod) (h : (l.map keyOf).Nodup) :
    buildPodMap l = l.map fun p => (keyOf p, p) := by
  have := foldl_mapInsert l [] (by simpa using h)
  simpa [buildPodMap] using this

/-- With distinct keys, looking a pod's key up in the key-pod pairing finds
that pod. -/
theorem lookup_keyMap (l : List Pod) (h : (l.map keyOf).Nodup) :
    ∀ p ∈ l, (l.map fun q => (keyOf q, q)).lookup (keyOf p) = some p := by
  induction l with
  | nil => simp
  | cons q t ih =>
    have hparts : (∀ x ∈ t, ¬ keyOf x = keyOf q) ∧ (t.map keyOf).Nodup := by
      simpa using h
    intro p hp
    rcases List.mem_cons.mp hp with rfl | hpt
    · simp [List.lookup]
    · have hne : (keyOf p == keyOf q) = false := by
        rw [beq_eq_false_iff_ne]
        exact hparts.1 p hpt
      simp only [List.map_cons, List.lookup, hne]
      exact ih hparts.2 p hpt

/-- A poll identical to the snapshot produces no changes (distinct keys). -/
theorem detect_unchanged (l : List Pod) (h : (l.map keyOf).Nodup) :
    detectPodChanges (buildPodMap l) l = [] := by
  unfold detectPodChanges
  rw [buildPodMap_eq l h]
  rw [List.append_eq_nil]
  constructor
  · rw [List.filterMap_eq_nil_iff]
    intro kv hkv
    obtain ⟨p, hp, rfl⟩ := List.mem_map.mp hkv
    rw [lookup_keyMap l h p hp]
    simp [podChanged_self]
  · rw [List.filterMap_eq_nil_iff]
    intro kv hkv
    have hany : (l.map fun q => (keyOf q, q)).any (fun c => c.1 == kv.1) = true :=
      List.any_eq_true.mpr ⟨kv, hkv, beq_self_eq_true kv.1⟩
    simp [hany]

/-- Repeated identical polls produce no events after the initial replay. -/
theorem watchLoop_replicate (l : List Pod) (h : (l.map keyOf).Nodup) :
    ∀ m : Nat, watchLoop (buildPodMap l) (List.replicate m l) = [] := by
  intro m
  induction m with
  | zero => rfl
  | succ k ih =>
    rw [List.replicate_succ, watchLoop]
    simp [watchTick, detect_unchanged l h, ih]

/-- C5: watch replay.  A watch opened against the pods listed with the
connection's namespace, label-selector and field-selector filters emits one
Added event per matching pre-existing pod, in order, before anything else —
and when subsequent polls return the same listing, those Added events are
the only events ever emitted (no duplicates), provided the listed pods have
distinct `namespace/name` keys. -/
theorem watch_replay (containers : List PodmanContainer)
    (ns ls fs : String) (polls : List (List Pod)) (m : Nat)
    (hnd : ((listPods containers ns ls fs).map keyOf).Nodup) :
    ((watchPods (listPods containers ns ls fs) polls).take
        (listPods containers ns ls fs).length =
      (listPods containers ns ls fs).map
        fun p => { type := WatchEventType.added, pod := p }) ∧
    watchPods (listPods containers ns ls fs)
        (List.replicate m (listPods containers ns ls fs)) =
      (listPods containers ns ls fs).map
        fun p => { type := WatchEventType.added, pod := p } := by
  constructor
  · unfold watchPods
    rw [show (listPods containers ns ls fs).length =
        ((listPods containers ns ls fs).map
          fun p => ({ type := WatchEventType.added, pod := p } : WatchEvent)).length
      from (List.length_map _ _).symm]
    exact List.take_left _ _
  · unfold watchPods
    rw [watchLoop_replicate (listPods containers ns ls fs) hnd m]
    simp

/-- Witness for C5: one pre-existing pod, one unchanged poll — exactly one
Added event and nothing else. -/
theorem watch_replay_witness :
    watchPods (listPods [labeledContainer] noSelector noSelector noSelector)
        (List.replicate 1 (listPods [labeledContainer] noSelector noSelector noSelector)) =
      (listPods [labeledContainer] noSelector noSelector noSelector).map
        fun p => { type := WatchEventType.added, pod := p } :=
  (watch_replay [labeledContainer] noSelector noSelector noSelector
    (List.replicate 1 (listPods [labeledContainer] noSelector noSelector noSelector))
    1 (by decide)).2

/-- C6: the exhaustive phase mapping.  For every container record that maps
to a pod: running → Running with the single container-status ready flag
true; exited with exit code 0 → Succeeded; exited with nonzero exit code →
Failed; created or configured → Pending; any other state → Unknown — and
each case carries exactly one synthetic condition (`Ready` or
`PodScheduled`) except Unknown, which carries none. -/
theorem pod_phase_mapping (c : PodmanContainer) (pod : Pod)
    (h : podmanContainerToPod c = some pod) :
    (c.state = "running" →
      pod.phase = PodPhase.running ∧
      pod.containerStatuses.map ContainerStatus.ready = [true] ∧
      pod.conditions = [⟨.podReady, .condTrue⟩]) ∧
    (c.state = "exited" → c.exitCode = 0 →
      pod.phase = PodPhase.succeeded ∧
      pod.containerStatuses.map ContainerStatus.ready = [false] ∧
      pod.conditions = [⟨.podReady, .condFalse⟩]) ∧
    (c.state = "exited" → c.exitCode ≠ 0 →
      pod.phase = PodPhase.failed ∧
      pod.containerStatuses.map ContainerStatus.ready = [false] ∧
      pod.conditions = [⟨.podReady, .condFalse⟩]) ∧
    ((c.state = "created" ∨ c.state = "configured") →
      pod.phase = PodPhase.pending ∧
      pod.conditions = [⟨.podScheduled, .condTrue⟩]) ∧
    (c.state ≠ "running" → c.state ≠ "exited" → c.state ≠ "created" →
      c.state ≠ "configured" →
      pod.phase = PodPhase.unknown ∧ pod.conditions = []) := by
  simp only [podmanContainerToPod] at h
  split at h
  · exact absurd h (by simp)
  · rw [Option.some.injEq] at h
    subst h
    refine ⟨?_, ?_, ?_, ?_, ?_⟩
    · intro hs
      simp [hs]
    · intro hs he
      simp [hs, he]
    · intro hs he
      simp [hs, he]
    · intro hs
      rcases hs with hs | hs <;> simp [hs]
    · intro h1 h2 h3 h4
      simp [h1, h2, h3, h4]

/-- Witness for C6: the running container maps to phase Running with a ready
container status and the single Ready condition. -/
theorem pod_phase_mapping_witness :
    labeledPodVal.phase = PodPhase.running ∧
    labeledPodVal.containerStatuses.map ContainerStatus.ready = [true] ∧
    labeledPodVal.conditions = [⟨.podReady, .condTrue⟩] :=
  (pod_phase_mapping labeledContainer labeledPodVal (by decide)).1 (by decide)

/-- Listing with a label selector filters the unfiltered listing through
`matchesLabelSelector`. -/
theorem listPods_label_view (cs : List PodmanContainer) (sel : String) :
    listPods cs noSelector sel noSelector =
      (listPods cs noSelector noSelector noSelector).filter
        fun p => matchesLabelSelector p sel := by
  unfold listPods
  rw [List.filter_filterMap]
  apply List.filterMap_congr
  intro c _
  cases hc : podmanContainerToPod c with
  | none => simp
  | some pod =>
    by_cases hsel : sel = ""
    · subst hsel
      simp [noSelector, matchesLabelSelector, Option.filter]
    · by_cases hm : matchesLabelSelector pod sel = true
      · simp [noSelector, hsel, hm, Option.filter]
      · have hm' : matchesLabelSelector pod sel = false :=
          Bool.eq_false_iff.mpr hm
        simp [noSelector, hsel, hm', Option.filter]

/-- Under the `key=value` shape, the label matcher is exactly the label
lookup. -/
theorem matchesLabelSelector_shape (pod : Pod) (sel k v : String)
    (hsplit : stringsSplit sel '=' = [k, v])
    (hk : trimSpace k = k) (hv : trimSpace v = v) :
    matchesLabelSelector pod sel = (pod.labels.lookup k == some v) := by
  have hne : ¬ sel = "" := by
    intro he
    subst he
    rw [show stringsSplit "" '=' = [""] from rfl] at hsplit
    exact absurd hsplit (by simp)
  unfold matchesLabelSelector
  rw [if_neg hne, hsplit]
  show (match pod.labels.lookup (trimSpace k) with
        | some pv => decide (pv = trimSpace v)
        | none => false) = (pod.labels.lookup k == some v)
  rw [hk, hv]
  cases hl : pod.labels.lookup k with
  | none => rfl
  | some pv =>
    by_cases hpv : pv = v
    · simp [hpv]
    · simp [hpv]

/-- C7: label-selector filtering.  A selector that splits into exactly one
`key=value` clause (trimmed) keeps exactly the pods whose label map carries
that key with that value; a selector of any other shape leaves the listing
unfiltered. -/
theorem label_selector_filtering :
    (∀ (containers : List PodmanContainer) (sel k v : String),
      stringsSplit sel '=' = [k, v] → trimSpace k = k → trimSpace v = v →
      listPods containers noSelector sel noSelector =
        (listPods containers noSelector noSelector noSelector).filter
          fun p => p.labels.lookup k == some v) ∧
    (∀ (containers : List PodmanContainer) (sel : String),
      (stringsSplit sel '=').length ≠ 2 →
      listPods containers noSelector sel noSelector =
        listPods containers noSelector noSelector noSelector) := by
  constructor
  · intro cs sel k v hsplit hk hv
    rw [listPods_label_view cs sel]
    exact List.filter_congr
      fun p _ => matchesLabelSelector_shape p sel k v hsplit hk hv
  · intro cs sel hlen
    rw [listPods_label_view cs sel]
    apply List.filter_eq_self.mpr
    intro p _
    unfold matchesLabelSelector
    split
    · rfl
    · split
      · rename_i k v heq
        exact absurd (by simp [heq]) hlen
      · rfl

/-- Witness for C7: the `app=web` selector keeps the labelled pod via the
label lookup; a two-clause selector shape leaves the listing unfiltered. -/
theorem label_selector_filtering_witness :
    listPods [labeledContainer] noSelector selAppWeb noSelector =
      (listPods [labeledContainer] noSelector noSelector noSelector).filter
        (fun p => p.labels.lookup keyApp == some valWeb) ∧
    listPods [labeledContainer] noSelector selComplex noSelector =
      listPods [labeledContainer] noSelector noSelector noSelector :=
  ⟨label_selector_filtering.1 [labeledContainer] selAppWeb keyApp valWeb
      (by decide) (by decide) (by decide),
   label_selector_filtering.2 [labeledContainer] selComplex (by decide)⟩

/-- C8: secret-creation validation.  For a new secret in the supported
namespace: a data map with zero entries or more than one entry is rejected
with an error and the runtime secret store is left unchanged; a data map
with exactly the entry `"data" ↦ v` is accepted and stores exactly that
value under the secret's name. -/
theorem secret_create_validation (st : SecretStore) (s : K8sSecret)
    (hns : s.ns = primaryNamespace)
    (hnew : getPodmanSecret st s.name = none) :
    ((s.data.length = 0 ∨ 1 < s.data.length) →
      (∃ e, (createSecret st s).1 = Except.error e) ∧
      (createSecret st s).2 = st) ∧
    (∀ v, s.data = [("data", v)] →
      createSecret st s = (Except.ok (), st ++ [(s.name, v)])) := by
  have hns' : ¬ s.ns ≠ primaryNamespace := by simp [hns]
  constructor
  · intro hlen
    unfold createSecret
    rw [if_neg hns', hnew]
    unfold createPodmanSecret
    rcases hlen with h0 | h1
    · rw [if_pos h0]
      exact ⟨⟨_, rfl⟩, rfl⟩
    · rw [if_neg (by omega), if_pos h1]
      exact ⟨⟨_, rfl⟩, rfl⟩
  · intro v hdata
    have hfind : getPodmanSecret (st ++ [(s.name, v)]) s.name = some (s.name, v) := by
      unfold getPodmanSecret at hnew ⊢
      rw [List.find?_append, hnew]
      simp [List.find?]
    unfold createSecret
    rw [if_neg hns', hnew]
    unfold createPodmanSecret
    rw [hdata]
    simp [hfind]

/-- Witness for C8: a two-entry secret is rejected with the store untouched;
the single-entry `"data"` secret is accepted and stored. -/
theorem secret_create_validation_witness :
    ((∃ e, (createSecret [] twoEntrySecret).1 = Except.error e) ∧
      (createSecret [] twoEntrySecret).2 = []) ∧
    createSecret [] oneEntrySecret =
      (Except.ok (), [(oneEntrySecret.name, "value-1")]) :=
  ⟨(secret_create_validation [] twoEntrySecret (by decide) (by decide)).1
      (by decide),
   by
     have h := (secret_create_validation [] oneEntrySecret (by decide)
       (by decide)).2 "value-1" (by decide)
     simpa using h⟩

end PodKube
